import Mathlib

/-!
Shallow embedding of the mastery-tracking and session-state core of the
socrates repository (backend/domain/entities, backend/domain/services/mastery.py,
and the use-case orchestrators under backend/application/use_cases).

Python floats are modelled as rationals, datetimes as natural-number
timestamps, Python dicts as association lists in insertion order, and
raised exceptions as an explicit error type threaded through the state.
-/

namespace Socrates

abbrev QuestionID := String
abbrev KnowledgeUnitID := String
abbrev Answer := String

/-- Error conditions: the named domain/application exception classes of the
repository, plus the Python builtin ValueError used by some code paths. -/
inductive Err where
  | studySessionFull (study_session_id : String)
  | learningPlanAlreadyCompleted (learning_plan_id : String)
  | learningPlanNotFound (learning_plan_id : String)
  | studySessionNotFound (study_session_id : String)
  | questionNotFound (question_id : String)
  | questionNotInStudySession (question_id : String) (study_session_id : String)
  | kuNotInLearningPlan (knowledge_unit_id : String) (learning_plan_id : String)
  | noUnassessedAnswerAttempt (question_id : String)
  | valueError (msg : String)
  deriving Repr, DecidableEq

/-- domain/entities/question.py, AnswerAssessment (frozen dataclass). -/
structure AnswerAssessment where
  is_correct : Bool
  correct_answer : Option Answer := none
  explanation : Option String := none
  assessed_at : Nat := 0
  deriving Repr, DecidableEq

/-- domain/entities/question.py, AnswerAttempt (frozen dataclass; equality is
field-by-field value equality, as used by list.index). -/
structure AnswerAttempt where
  user_answer : Answer
  answered_at : Nat := 0
  assessment : Option AnswerAssessment := none
  deriving Repr, DecidableEq

inductive QuestionStatus where
  | pending
  | correct
  | incorrect
  deriving Repr, DecidableEq

/-- domain/entities/question.py, SessionQuestion. -/
structure SessionQuestion where
  question_id : QuestionID
  attempts : List AnswerAttempt := []
  last_answered_at : Option Nat := none
  knowledge_unit_id : Option KnowledgeUnitID := none
  deriving Repr, DecidableEq

/-- Python list.index on a list of attempts: index of the first element equal
to the argument, or the ValueError sentinel (modelled as none). -/
def listIndex (l : List AnswerAttempt) (x : AnswerAttempt) : Option Nat :=
  match l with
  | [] => none
  | a :: rest => if a = x then some 0 else (listIndex rest x).map (· + 1)

/-- SessionQuestion.submit_answer: appends an unassessed attempt. -/
def SessionQuestion.submit_answer (sq : SessionQuestion) (user_answer : Answer)
    (now : Nat) : SessionQuestion :=
  { sq with
    attempts := sq.attempts ++ [{ user_answer := user_answer, answered_at := now }],
    last_answered_at := some now }

/-- SessionQuestion.latest_unassessed_attempt: scan newest-first for the first
attempt with no assessment. -/
def SessionQuestion.latest_unassessed_attempt (sq : SessionQuestion) :
    Option AnswerAttempt :=
  sq.attempts.reverse.find? (fun a => a.assessment.isNone)

/-- SessionQuestion.attach_assessment: locate the attempt by value equality
(Python list.index, which raises ValueError when absent — the raise happens
before any mutation) and replace it with an equal attempt carrying the
assessment.  Returns the post-call state together with the raised error,
if any. -/
def SessionQuestion.attach_assessment (sq : SessionQuestion)
    (attempt : AnswerAttempt) (assessment : AnswerAssessment) :
    SessionQuestion × Option Err :=
  match listIndex sq.attempts attempt with
  | none => (sq, some (Err.valueError "list.index(x): x not in list"))
  | some index =>
      let replaced : AnswerAttempt :=
        { user_answer := attempt.user_answer,
          answered_at := attempt.answered_at,
          assessment := some assessment }
      ({ sq with attempts := sq.attempts.set index replaced }, none)

/-- SessionQuestion.status: pending when there are no attempts; otherwise the
correctness of the first assessed attempt found scanning newest-first, or
pending when no attempt is assessed. -/
def SessionQuestion.status (sq : SessionQuestion) : QuestionStatus :=
  if sq.attempts = [] then QuestionStatus.pending
  else
    match sq.attempts.reverse.find? (fun a => a.assessment.isSome) with
    | some attempt =>
        match attempt.assessment with
        | some assessment =>
            if assessment.is_correct then QuestionStatus.correct
            else QuestionStatus.incorrect
        | none => QuestionStatus.pending
    | none => QuestionStatus.pending

/-- domain/entities/learning.py, StudySession.  The Python dict
question_id -> SessionQuestion is an association list in insertion order. -/
structure StudySession where
  id : String
  knowledge_units : List KnowledgeUnitID
  max_questions : Int
  questions : List (QuestionID × SessionQuestion) := []
  started_at : Nat := 0
  ended_at : Option Nat := none
  deriving Repr, DecidableEq

/-- Membership test of a key in the question dict. -/
def dictMem (d : List (QuestionID × SessionQuestion)) (k : QuestionID) : Bool :=
  d.any (fun p => p.1 = k)

/-- Python dict assignment d[k] = v: update in place when the key exists,
otherwise append preserving insertion order. -/
def dictInsert (d : List (QuestionID × SessionQuestion)) (k : QuestionID)
    (v : SessionQuestion) : List (QuestionID × SessionQuestion) :=
  if dictMem d k then d.map (fun p => if p.1 = k then (k, v) else p)
  else d ++ [(k, v)]

/-- StudySession.can_ask_more_questions. -/
def StudySession.can_ask_more_questions (s : StudySession) : Bool :=
  decide ((s.questions.length : Int) < s.max_questions) && s.ended_at.isNone

/-- StudySession.register_question: raises StudySessionFull when no more
questions may be asked (this check comes first in the source); then returns
unchanged when the id is already present; otherwise inserts a fresh
SessionQuestion for the id. -/
def StudySession.register_question (s : StudySession) (question_id : QuestionID) :
    StudySession × Option Err :=
  if !s.can_ask_more_questions then (s, some (Err.studySessionFull s.id))
  else if dictMem s.questions question_id then (s, none)
  else ({ s with questions :=
            s.questions ++ [(question_id, { question_id := question_id })] }, none)

/-- StudySession.is_completed: explicitly ended, or at least one question is
registered and none of the registered questions has pending status. -/
def StudySession.is_completed (s : StudySession) : Bool :=
  if s.ended_at.isSome then true
  else if s.questions.length > 0 then
    s.questions.all (fun p => p.2.status != QuestionStatus.pending)
  else false

/-- StudySession.end_early. -/
def StudySession.end_early (s : StudySession) (now : Nat) : StudySession :=
  if s.ended_at.isNone then { s with ended_at := some now } else s

/-- domain/entities/knowledge_unit.py, KnowledgeUnit (base fields shared by
FactKnowledge and SkillKnowledge; floats as rationals). -/
structure KnowledgeUnit where
  id : KnowledgeUnitID
  description : String := ""
  importance : ℚ := 0
  mastery_level : ℚ := 0
  deriving Repr, DecidableEq

/-- domain/entities/learning.py, LearningPlan. -/
structure LearningPlan where
  id : String
  knowledge_units : List KnowledgeUnit
  sessions : List StudySession := []
  created_at : Nat := 0
  completed_at : Option Nat := none
  deriving Repr, DecidableEq

/-- LearningPlan.is_completed. -/
def LearningPlan.is_completed (p : LearningPlan) : Bool :=
  p.completed_at.isSome

/-- LearningPlan.start_session: raises when the plan is already completed
(before any mutation); otherwise constructs a session over the plan's current
knowledge units, appends it and returns it.  The fresh uuid and the clock are
passed in as new_id and now. -/
def LearningPlan.start_session (p : LearningPlan) (max_questions : Int)
    (new_id : String) (now : Nat) :
    LearningPlan × Option StudySession × Option Err :=
  if p.is_completed then (p, none, some (Err.learningPlanAlreadyCompleted p.id))
  else
    let session : StudySession :=
      { id := new_id,
        knowledge_units := p.knowledge_units.map (fun ku => ku.id),
        max_questions := max_questions,
        started_at := now }
    ({ p with sessions := p.sessions ++ [session] }, some session, none)

/-- LearningPlan.complete. -/
def LearningPlan.complete (p : LearningPlan) (now : Nat) : LearningPlan :=
  if !p.is_completed then { p with completed_at := some now } else p

/-- LearningPlan.all_questions. -/
def LearningPlan.all_questions (p : LearningPlan) : List SessionQuestion :=
  (p.sessions.map (fun session => session.questions.map (fun q => q.2))).flatten

/-- One iteration of the loop body of
QuestionBasedMasteryService.compute_mastery
(domain/services/mastery.py): the accumulator is the pair
(total_score, max_score). -/
def masteryStep (acc : ℚ × ℚ) (sq : SessionQuestion) : ℚ × ℚ :=
  let assessed_attempts := sq.attempts.filter (fun a => a.assessment.isSome)
  match assessed_attempts.getLast? with
  | none => acc
  | some latest_attempt =>
      match latest_attempt.assessment with
      | none => acc
      | some assessment =>
          let max_score := acc.2 + 1
          if assessment.is_correct then
            let attempts_count : ℚ := assessed_attempts.length
            let penalty := max 0 (1 - (1 / 5) * (attempts_count - 1))
            (acc.1 + penalty, max_score)
          else
            (acc.1 + 0, max_score)

/-- QuestionBasedMasteryService.compute_mastery, floats as rationals
(0.2 is 1/5). -/
def compute_mastery (session_questions : List SessionQuestion) : ℚ :=
  if session_questions = [] then 0
  else
    let scores := session_questions.foldl masteryStep (0, 0)
    if scores.2 = 0 then 0 else min 1 (scores.1 / scores.2)

/-- QuestionBasedMasteryService.update_mastery. -/
def update_mastery (ku : KnowledgeUnit) (session_questions : List SessionQuestion) :
    KnowledgeUnit :=
  { ku with mastery_level := compute_mastery session_questions }

/-- Reference definition written from the specification wording: the assessed
attempts of a question are those whose assessment is present. -/
def specAssessed (sq : SessionQuestion) : List AnswerAttempt :=
  sq.attempts.filter (fun a => a.assessment.isSome)

/-- Reference definition written from the specification wording: the score a
question adds to total_score — 0 when it has no assessed attempt or its latest
assessed attempt is incorrect, and max 0 (1 - 0.2 * (N - 1)) when the latest
assessed attempt is correct, with N the count of assessed attempts. -/
def specQuestionScore (sq : SessionQuestion) : ℚ :=
  match (specAssessed sq).getLast? with
  | none => 0
  | some latest =>
      match latest.assessment with
      | none => 0
      | some assessment =>
          if assessment.is_correct then
            max 0 (1 - (1 / 5) * ((specAssessed sq).length - 1))
          else 0

/-- Reference definition written from the specification wording: the weight a
question adds to max_score — 0 when no attempt is assessed, else exactly 1. -/
def specQuestionWeight (sq : SessionQuestion) : ℚ :=
  if specAssessed sq = [] then 0 else 1

/-- Reference definition of mastery written from the specification wording:
sum the per-question scores and weights, return min 1 (total / max) when
max is positive and 0 otherwise (the empty list falls out as 0). -/
def spec_mastery (session_questions : List SessionQuestion) : ℚ :=
  let total_score := (session_questions.map specQuestionScore).sum
  let max_score := (session_questions.map specQuestionWeight).sum
  if 0 < max_score then min 1 (total_score / max_score) else 0

/-- domain/entities/question.py, Difficulty. -/
structure Difficulty where
  level : Int
  description : Option String := some ""
  deriving Repr, DecidableEq

/-- domain/entities/question.py, Question. -/
structure Question where
  id : QuestionID
  text : String
  difficulty : Difficulty := { level := 1 }
  correct_answer : Answer
  knowledge_unit_id : KnowledgeUnitID
  deriving Repr, DecidableEq

/-- application/use_cases/start_study_session.py,
StartStudySessionUseCase.execute.  The collaborators are passed as functions:
lookup is the repository result for the plan id, select_knowledge_units is the
focus policy, generate_questions_batch the question generator; the fresh uuid
and the clock are new_session_id and now.  A missing plan raises the Python
builtin ValueError (not a named exception).  The constructed session is
appended to the plan without consulting completed_at. -/
def startStudySessionExecute
    (lookup : Option LearningPlan)
    (select_knowledge_units : List KnowledgeUnit → Nat → List KnowledgeUnit)
    (generate_questions_batch : KnowledgeUnit → Nat → List Question)
    (max_questions : Nat) (max_knowledge_units : Nat)
    (new_session_id : String) (now : Nat) :
    Except Err (LearningPlan × StudySession) :=
  match lookup with
  | none => Except.error (Err.valueError "LearningPlan not found")
  | some learning_plan =>
      let knowledge_units :=
        select_knowledge_units learning_plan.knowledge_units max_knowledge_units
      if knowledge_units = [] then
        Except.error (Err.valueError "No knowledge units selected for study session")
      else
        let questions_per_ku := max_questions / knowledge_units.length
        let remaining_questions := max_questions % knowledge_units.length
        let questions : List Question :=
          (knowledge_units.enum.map (fun p =>
            let count := questions_per_ku +
              (if p.1 < remaining_questions then 1 else 0)
            if count > 0 then generate_questions_batch p.2 count else [])).flatten
        let session : StudySession :=
          { id := new_session_id,
            knowledge_units := knowledge_units.map (fun ku => ku.id),
            questions := questions.foldl (fun d q =>
              dictInsert d q.id
                { question_id := q.id,
                  knowledge_unit_id := some q.knowledge_unit_id }) [],
            max_questions := (max_questions : Int),
            started_at := now }
        let learning_plan2 :=
          { learning_plan with sessions := learning_plan.sessions ++ [session] }
        Except.ok (learning_plan2, session)

/-- application/use_cases/update_ku_mastery.py, step 3 of
UpdateKnowledgeUnitMasteryUseCase.execute: collect, across every session of
the plan, the session questions whose knowledge_unit_id equals the unit's id
and whose status is not pending. -/
def collectKuSessionQuestions (plan : LearningPlan) (kuId : KnowledgeUnitID) :
    List SessionQuestion :=
  plan.sessions.foldl (fun acc session =>
    session.questions.foldl (fun acc2 p =>
      if p.2.knowledge_unit_id = some kuId ∧ p.2.status ≠ QuestionStatus.pending
      then acc2 ++ [p.2] else acc2) acc) []

/-- application/use_cases/update_ku_mastery.py,
UpdateKnowledgeUnitMasteryUseCase.execute.  The repository lookup and the
mastery service are passed as functions; the in-place mutation of the found
knowledge unit is modelled by mapping over the plan's units. -/
def updateKnowledgeUnitMasteryExecute
    (lookup : Option LearningPlan)
    (mastery_update : KnowledgeUnit → List SessionQuestion → KnowledgeUnit)
    (learning_plan_id : String) (knowledge_unit_id : String) :
    Except Err (LearningPlan × KnowledgeUnit) :=
  match lookup with
  | none => Except.error (Err.learningPlanNotFound learning_plan_id)
  | some plan =>
      match plan.knowledge_units.find? (fun ku => ku.id = knowledge_unit_id) with
      | none =>
          Except.error (Err.kuNotInLearningPlan knowledge_unit_id learning_plan_id)
      | some ku =>
          let session_questions := collectKuSessionQuestions plan ku.id
          let ku2 := mastery_update ku session_questions
          let knowledge_units2 := plan.knowledge_units.map (fun k =>
            if k.id = ku.id then ku2 else k)
          let plan2 := { plan with knowledge_units := knowledge_units2 }
          Except.ok (plan2, ku2)

/-- application/use_cases/assess_question.py,
AssessQuestionOutcomeUseCase.execute.  Collaborators are passed as functions;
the in-place attachment of the assessment is modelled by mapping the updated
session question back into the plan. -/
def assessQuestionExecute
    (plan_lookup : Option LearningPlan)
    (question_lookup : QuestionID → Option Question)
    (evaluate : Question → Answer → AnswerAssessment)
    (learning_plan_id : String) (study_session_id : String)
    (question_id : QuestionID) :
    Except Err (LearningPlan × AnswerAssessment) :=
  match plan_lookup with
  | none => Except.error (Err.learningPlanNotFound learning_plan_id)
  | some learning_plan =>
      match learning_plan.sessions.find? (fun s => s.id = study_session_id) with
      | none => Except.error (Err.studySessionNotFound study_session_id)
      | some session =>
          match session.questions.find? (fun p => p.1 = question_id) with
          | none =>
              Except.error (Err.questionNotInStudySession question_id study_session_id)
          | some entry =>
              let session_question := entry.2
              match session_question.latest_unassessed_attempt with
              | none => Except.error (Err.noUnassessedAnswerAttempt question_id)
              | some attempt =>
                  match question_lookup question_id with
                  | none => Except.error (Err.questionNotFound question_id)
                  | some question =>
                      let assessment := evaluate question attempt.user_answer
                      let result := session_question.attach_assessment attempt assessment
                      match result.2 with
                      | some e => Except.error e
                      | none =>
                          let questions2 := session.questions.map (fun p =>
                            if p.1 = question_id then (p.1, result.1) else p)
                          let session2 := { session with questions := questions2 }
                          let sessions2 := learning_plan.sessions.map (fun s =>
                            if s.id = study_session_id then session2 else s)
                          let plan2 := { learning_plan with sessions := sessions2 }
                          Except.ok (plan2, assessment)

/-- Folding register_question over a list of question ids, keeping the
post-call state each time (raised errors leave the state unchanged). -/
def registerAll (s : StudySession) (qids : List QuestionID) : StudySession :=
  qids.foldl (fun t q => (t.register_question q).1) s

/-- Reference definition written from the specification wording: pending when
the attempt list is empty or no attempt carries an assessment; otherwise the
correctness of the latest assessed attempt (last in attempt order among the
assessed ones). -/
def spec_status (sq : SessionQuestion) : QuestionStatus :=
  match (specAssessed sq).getLast? with
  | none => QuestionStatus.pending
  | some latest =>
      match latest.assessment with
      | none => QuestionStatus.pending
      | some assessment =>
          if assessment.is_correct then QuestionStatus.correct
          else QuestionStatus.incorrect

/-- Concrete data used by witnesses and counterexamples. -/
def cAttemptCorrect : AnswerAttempt :=
  { user_answer := "a", answered_at := 1,
    assessment := some { is_correct := true } }

def cAttemptOpen : AnswerAttempt :=
  { user_answer := "c", answered_at := 3 }

def cAssessmentWrong : AnswerAssessment :=
  { is_correct := false }

def cSqEmpty : SessionQuestion :=
  { question_id := "q1" }

def cSqCorrect : SessionQuestion :=
  { question_id := "q1", attempts := [cAttemptCorrect] }

def cFullSession : StudySession :=
  { id := "s1", knowledge_units := [], max_questions := 1,
    questions := [("q1", cSqEmpty)] }

def cOpenSession : StudySession :=
  { id := "s2", knowledge_units := [], max_questions := 2,
    questions := [("q1", cSqEmpty)] }

def cKU : KnowledgeUnit :=
  { id := "ku1" }

def cPlanCompleted : LearningPlan :=
  { id := "p1", knowledge_units := [cKU], completed_at := some 5 }

def cSelect (units : List KnowledgeUnit) (max_units : Nat) : List KnowledgeUnit :=
  units.take max_units

def cGen (ku : KnowledgeUnit) (_count : Nat) : List Question :=
  [{ id := "g1", text := "t", correct_answer := "a", knowledge_unit_id := ku.id }]

/-- Number of sessions held by the plan inside an execute result. -/
def execPlanSessionCount : Except Err (LearningPlan × StudySession) → Option Nat
  | Except.ok r => some r.1.sessions.length
  | Except.error _ => none

theorem find?_eq_filter_head? {α : Type} (p : α → Bool) (l : List α) :
    l.find? p = (l.filter p).head? := by
  induction l with
  | nil => rfl
  | cons a t ih =>
      by_cases h : p a
      · rw [List.find?_cons_of_pos _ h, List.filter_cons_of_pos h]
        rfl
      · rw [List.find?_cons_of_neg _ h, List.filter_cons_of_neg h, ih]

/-- C6: the derived status of a SessionQuestion is pending when the attempt
list is empty or no attempt carries an assessment, and otherwise equals the
correctness of the latest assessed attempt, found scanning attempts
newest-first and skipping unassessed ones (a newer unassessed attempt does not
change the status), i.e. status agrees with the reference definition written
from the specification. -/
theorem status_latest_assessed (sq : SessionQuestion) : sq.status = spec_status sq := by
  unfold SessionQuestion.status spec_status specAssessed
  by_cases h : sq.attempts = []
  · rw [if_pos h, h]
    simp
  · rw [if_neg h, find?_eq_filter_head?, List.filter_reverse, List.head?_reverse]
    cases hl : (List.filter (fun a => a.assessment.isSome) sq.attempts).getLast? with
    | none => simp
    | some latest =>
        cases ha : latest.assessment with
        | none => simp [ha]
        | some a => simp [ha]

/-- C7: is_completed is true exactly when the session was explicitly ended or
at least one question is registered and no registered question has pending
status; in particular a session with no questions and no ended_at is not
completed. -/
theorem is_completed_characterization (s : StudySession) :
    s.is_completed = true ↔
      s.ended_at ≠ none ∨
        (s.questions ≠ [] ∧
          ∀ p ∈ s.questions, p.2.status ≠ QuestionStatus.pending) := by
  unfold StudySession.is_completed
  cases he : s.ended_at with
  | some t => simp [he]
  | none =>
      by_cases hq : s.questions = []
      · simp [hq]
      · have hlen : s.questions.length > 0 := List.length_pos.mpr hq
        simp [hq, hlen, List.all_eq_true]

theorem masteryStep_eq (acc : ℚ × ℚ) (sq : SessionQuestion) :
    masteryStep acc sq = (acc.1 + specQuestionScore sq, acc.2 + specQuestionWeight sq) := by
  unfold masteryStep specQuestionScore specQuestionWeight specAssessed
  cases hl : (List.filter (fun a => a.assessment.isSome) sq.attempts).getLast? with
  | none =>
      have he : List.filter (fun a => a.assessment.isSome) sq.attempts = [] :=
        List.getLast?_eq_none_iff.mp hl
      simp [hl, he]
  | some latest =>
      have hmem : latest ∈ List.filter (fun a => a.assessment.isSome) sq.attempts :=
        List.mem_of_getLast?_eq_some hl
      have hsome : latest.assessment.isSome = true := by
        have := (List.mem_filter.mp hmem).2
        simpa using this
      have hne : List.filter (fun a => a.assessment.isSome) sq.attempts ≠ [] := by
        intro hc
        rw [hc] at hmem
        exact absurd hmem (List.not_mem_nil _)
      cases ha : latest.assessment with
      | none => rw [ha] at hsome; simp at hsome
      | some assessment =>
          by_cases hc : assessment.is_correct
          · simp [hl, ha, hc, hne]
          · simp [hl, ha, hc, hne]

theorem mastery_foldl (qs : List SessionQuestion) : ∀ t m : ℚ,
    qs.foldl masteryStep (t, m) =
      (t + (qs.map specQuestionScore).sum, m + (qs.map specQuestionWeight).sum) := by
  induction qs with
  | nil => intro t m; simp
  | cons sq rest ih =>
      intro t m
      rw [List.foldl_cons, masteryStep_eq]
      rw [ih]
      simp [add_assoc]

theorem specQuestionScore_nonneg (sq : SessionQuestion) : 0 ≤ specQuestionScore sq := by
  unfold specQuestionScore
  cases hl : (specAssessed sq).getLast? with
  | none => norm_num
  | some latest =>
      cases ha : latest.assessment with
      | none => simp [ha]
      | some a =>
          by_cases hc : a.is_correct
          · simp only [ha, hc, if_true]
            exact le_max_left _ _
          · simp [ha, hc]

theorem specQuestionWeight_nonneg (sq : SessionQuestion) : 0 ≤ specQuestionWeight sq := by
  unfold specQuestionWeight
  split <;> norm_num

theorem scoreSum_nonneg (qs : List SessionQuestion) :
    0 ≤ (qs.map specQuestionScore).sum := by
  refine List.sum_nonneg ?_
  intro x hx
  obtain ⟨sq, _, rfl⟩ := List.mem_map.mp hx
  exact specQuestionScore_nonneg sq

theorem weightSum_nonneg (qs : List SessionQuestion) :
    0 ≤ (qs.map specQuestionWeight).sum := by
  refine List.sum_nonneg ?_
  intro x hx
  obtain ⟨sq, _, rfl⟩ := List.mem_map.mp hx
  exact specQuestionWeight_nonneg sq

theorem compute_mastery_eq_spec (qs : List SessionQuestion) :
    compute_mastery qs = spec_mastery qs := by
  unfold compute_mastery spec_mastery
  by_cases h : qs = []
  · simp [h]
  · rw [if_neg h, mastery_foldl]
    simp only [zero_add]
    rcases eq_or_lt_of_le (weightSum_nonneg qs) with hw | hw
    · rw [if_pos hw.symm, if_neg (by rw [← hw]; exact lt_irrefl 0)]
    · rw [if_neg (by exact ne_of_gt hw), if_pos hw]

/-- C1: compute_mastery agrees with the reference definition written from the
specification: an empty list yields 0; a question with no assessed attempt
contributes to neither total_score nor max_score; every other question adds
exactly 1 to max_score and, when its latest assessed attempt is correct, adds
max 0 (1 - 0.2 * (N - 1)) to total_score with N its count of assessed
attempts (0 when incorrect); the result is min 1 (total_score / max_score)
when max_score is positive and 0 otherwise. -/
theorem compute_mastery_matches_reference (qs : List SessionQuestion) :
    compute_mastery qs = spec_mastery qs :=
  compute_mastery_eq_spec qs

/-- C4: for every non-empty list of session questions the computed mastery
lies between 0 and 1 inclusive. -/
theorem compute_mastery_bounds (qs : List SessionQuestion) (h : qs ≠ []) :
    0 ≤ compute_mastery qs ∧ compute_mastery qs ≤ 1 := by
  rw [compute_mastery_eq_spec]
  unfold spec_mastery
  by_cases hw : 0 < (qs.map specQuestionWeight).sum
  · rw [if_pos hw]
    constructor
    · exact le_min (by norm_num)
        (div_nonneg (scoreSum_nonneg qs) (le_of_lt hw))
    · exact min_le_left _ _
  · rw [if_neg hw]
    norm_num

/-- Witness for C4 at a concrete input: one question with a single correct
assessed attempt. -/
theorem compute_mastery_bounds_witness :
    [cSqCorrect] ≠ ([] : List SessionQuestion) ∧
      0 ≤ compute_mastery [cSqCorrect] ∧ compute_mastery [cSqCorrect] ≤ 1 :=
  ⟨by simp, compute_mastery_bounds [cSqCorrect] (by simp)⟩

/-- C2 (amended): LearningPlan.start_session on a completed plan fails with
the already-completed condition and changes nothing; the StartStudySession
use case, by contrast, builds and appends the session itself without
consulting completed_at (see the counterexample theorem). -/
theorem start_session_completed_gate (p : LearningPlan) (mq : Int) (nid : String)
    (now : Nat) (h : p.is_completed = true) :
    p.start_session mq nid now =
      (p, none, some (Err.learningPlanAlreadyCompleted p.id)) := by
  unfold LearningPlan.start_session
  simp [h]

theorem start_session_completed_gate_witness :
    cPlanCompleted.is_completed = true ∧
      cPlanCompleted.start_session 6 "s-x" 0 =
        (cPlanCompleted, none, some (Err.learningPlanAlreadyCompleted "p1")) :=
  ⟨rfl, start_session_completed_gate cPlanCompleted 6 "s-x" 0 rfl⟩

/-- C2 counterexample: the StartStudySession use case appends a new session to
a plan whose completed_at is set — it never consults the completion flag, so
the claim that no core operation adds a session to a completed plan is false
at this input. -/
theorem start_use_case_appends_to_completed_plan :
    cPlanCompleted.is_completed = true ∧
      cPlanCompleted.sessions.length = 0 ∧
      execPlanSessionCount
          (startStudySessionExecute (some cPlanCompleted) cSelect cGen 6 3 "s-new" 7) =
        some 1 :=
  ⟨rfl, rfl, rfl⟩

/-- C3 (amended): registering an already-present question_id is a no-op (state
unchanged and no error) exactly when can_ask_more_questions() is true; the
capacity/ended check runs first in register_question, so on a full or ended
session an already-present id raises StudySessionFull (still leaving the
questions unchanged). -/
theorem register_present_noop_iff_can_ask (s : StudySession) (qid : QuestionID)
    (hmem : dictMem s.questions qid = true) :
    (s.register_question qid).1 = s ∧
      ((s.register_question qid).2 = none ↔ s.can_ask_more_questions = true) := by
  unfold StudySession.register_question
  by_cases hc : s.can_ask_more_questions
  · simp [hc, hmem]
  · simp [hc]

theorem register_present_noop_iff_can_ask_witness :
    dictMem cOpenSession.questions "q1" = true ∧
      ((cOpenSession.register_question "q1").1 = cOpenSession ∧
        ((cOpenSession.register_question "q1").2 = none ↔
          cOpenSession.can_ask_more_questions = true)) :=
  ⟨rfl, register_present_noop_iff_can_ask cOpenSession "q1" rfl⟩

/-- C3 counterexample: on a session whose question count equals max_questions,
register_question with an id that is already present raises StudySessionFull
instead of being a no-op, because the capacity check precedes the idempotency
check. -/
theorem register_present_on_full_session_raises :
    dictMem cFullSession.questions "q1" = true ∧
      cFullSession.register_question "q1" =
        (cFullSession, some (Err.studySessionFull "s1")) :=
  ⟨rfl, rfl⟩

theorem register_preserves_max (s : StudySession) (qid : QuestionID) :
    ((s.register_question qid).1).max_questions = s.max_questions := by
  unfold StudySession.register_question
  by_cases hc : s.can_ask_more_questions
  · by_cases hm : dictMem s.questions qid
    · simp [hc, hm]
    · simp [hc, hm]
  · simp [hc]

theorem register_preserves_bound (s : StudySession) (qid : QuestionID)
    (h : (s.questions.length : Int) ≤ s.max_questions) :
    (((s.register_question qid).1).questions.length : Int) ≤ s.max_questions := by
  unfold StudySession.register_question
  by_cases hc : s.can_ask_more_questions
  · by_cases hm : dictMem s.questions qid
    · simp [hc, hm]
      exact h
    · have hlt : (s.questions.length : Int) < s.max_questions := by
        unfold StudySession.can_ask_more_questions at hc
        have h1 := (Bool.and_eq_true _ _).mp hc
        exact of_decide_eq_true h1.1
      simp [hc, hm]
      omega
  · simp [hc]
    exact h

theorem registerAll_bound (qids : List QuestionID) : ∀ s : StudySession,
    (s.questions.length : Int) ≤ s.max_questions →
    ((registerAll s qids).questions.length : Int) ≤
      (registerAll s qids).max_questions := by
  induction qids with
  | nil =>
      intro s h
      simpa [registerAll] using h
  | cons q rest ih =>
      intro s h
      have h1 := register_preserves_bound s q h
      have h2 : ((((s.register_question q).1).questions.length : Int)) ≤
          ((s.register_question q).1).max_questions := by
        rw [register_preserves_max]
        exact h1
      exact ih ((s.register_question q).1) h2

/-- C5: when a session starts within capacity, any sequence of
register_question calls keeps the question count within max_questions; and on
a session whose count equals max_questions, registering a new id raises
StudySessionFull and changes nothing. -/
theorem register_question_capacity (s : StudySession) (qids : List QuestionID)
    (qid : QuestionID) (h : (s.questions.length : Int) ≤ s.max_questions) :
    ((registerAll s qids).questions.length : Int) ≤
        (registerAll s qids).max_questions ∧
      ((s.questions.length : Int) = s.max_questions →
        dictMem s.questions qid = false →
        s.register_question qid = (s, some (Err.studySessionFull s.id))) := by
  constructor
  · exact registerAll_bound qids s h
  · intro heq _
    have hnlt : ¬ ((s.questions.length : Int) < s.max_questions) := by omega
    have hc : s.can_ask_more_questions = false := by
      unfold StudySession.can_ask_more_questions
      simp [hnlt]
    unfold StudySession.register_question
    simp [hc]

theorem register_question_capacity_witness :
    ((cFullSession.questions.length : Int) ≤ cFullSession.max_questions) ∧
      (((registerAll cFullSession ["q2", "q1"]).questions.length : Int) ≤
          (registerAll cFullSession ["q2", "q1"]).max_questions ∧
        ((cFullSession.questions.length : Int) = cFullSession.max_questions →
          dictMem cFullSession.questions "q9" = false →
          cFullSession.register_question "q9" =
            (cFullSession, some (Err.studySessionFull "s1")))) :=
  ⟨by decide, register_question_capacity cFullSession ["q2", "q1"] "q9" (by decide)⟩

/-- C8: every guarded mutation validates its precondition before changing any
state, so a failed call returns the aggregate exactly as it was:
attach_assessment, register_question and start_session each leave their
receiver unchanged whenever they raise. -/
theorem failed_mutation_leaves_aggregate_unchanged :
    (∀ (sq : SessionQuestion) (att : AnswerAttempt) (ass : AnswerAssessment)
        (e : Err),
        (sq.attach_assessment att ass).2 = some e →
        (sq.attach_assessment att ass).1 = sq) ∧
      (∀ (s : StudySession) (qid : QuestionID) (e : Err),
        (s.register_question qid).2 = some e → (s.register_question qid).1 = s) ∧
      (∀ (p : LearningPlan) (mq : Int) (nid : String) (now : Nat) (e : Err),
        (p.start_session mq nid now).2.2 = some e →
        (p.start_session mq nid now).1 = p) := by
  refine ⟨?_, ?_, ?_⟩
  · intro sq att ass e h
    unfold SessionQuestion.attach_assessment at h ⊢
    cases hi : listIndex sq.attempts att with
    | none => simp [hi]
    | some i => simp [hi] at h
  · intro s qid e h
    unfold StudySession.register_question at h ⊢
    by_cases hc : s.can_ask_more_questions
    · by_cases hm : dictMem s.questions qid
      · simp [hc, hm] at h
      · simp [hc, hm] at h
    · simp [hc]
  · intro p mq nid now e h
    unfold LearningPlan.start_session at h ⊢
    by_cases hp : p.is_completed
    · simp [hp]
    · simp [hp] at h

theorem failed_mutation_leaves_aggregate_unchanged_witness :
    ((cSqEmpty.attach_assessment cAttemptOpen cAssessmentWrong).2 =
          some (Err.valueError "list.index(x): x not in list") ∧
        (cSqEmpty.attach_assessment cAttemptOpen cAssessmentWrong).1 = cSqEmpty) ∧
      ((cFullSession.register_question "q9").2 =
            some (Err.studySessionFull "s1") ∧
        (cFullSession.register_question "q9").1 = cFullSession) ∧
      ((cPlanCompleted.start_session 6 "n" 0).2.2 =
            some (Err.learningPlanAlreadyCompleted "p1") ∧
        (cPlanCompleted.start_session 6 "n" 0).1 = cPlanCompleted) :=
  ⟨⟨rfl, failed_mutation_leaves_aggregate_unchanged.1 cSqEmpty cAttemptOpen
        cAssessmentWrong (Err.valueError "list.index(x): x not in list") rfl⟩,
    ⟨rfl, failed_mutation_leaves_aggregate_unchanged.2.1 cFullSession "q9"
        (Err.studySessionFull "s1") rfl⟩,
    ⟨rfl, failed_mutation_leaves_aggregate_unchanged.2.2 cPlanCompleted 6 "n" 0
        (Err.learningPlanAlreadyCompleted "p1") rfl⟩⟩

theorem listIndex_eq_none_of_not_mem (l : List AnswerAttempt) (x : AnswerAttempt)
    (h : x ∉ l) : listIndex l x = none := by
  induction l with
  | nil => rfl
  | cons a t ih =>
      have hax : ¬ a = x := by
        intro hax
        exact h (hax ▸ List.mem_cons_self a t)
      have hxt : x ∉ t := fun hm => h (List.mem_cons_of_mem a hm)
      unfold listIndex
      rw [if_neg hax, ih hxt]
      rfl

/-- C9 (amended): AssessQuestionOutcome (like the other orchestrators built on
the application exception classes) reports a missing LearningPlan as the
distinct LearningPlanNotFound condition; but the StartStudySession use case
reports a missing plan as a generic ValueError, and attach_assessment reports
an attempt not present in the question as the generic ValueError raised by
list.index — no distinct AssessmentAttemptMismatch condition exists in the
code. -/
theorem failure_conditions_mixed_generic_and_named :
    (∀ (sel : List KnowledgeUnit → Nat → List KnowledgeUnit)
        (gen : KnowledgeUnit → Nat → List Question)
        (mq mk : Nat) (sid : String) (now : Nat),
        startStudySessionExecute none sel gen mq mk sid now =
          Except.error (Err.valueError "LearningPlan not found")) ∧
      (∀ (sq : SessionQuestion) (att : AnswerAttempt) (ass : AnswerAssessment),
        att ∉ sq.attempts →
        sq.attach_assessment att ass =
          (sq, some (Err.valueError "list.index(x): x not in list"))) ∧
      (∀ (ql : QuestionID → Option Question)
        (ev : Question → Answer → AnswerAssessment)
        (pid sid : String) (qid : QuestionID),
        assessQuestionExecute none ql ev pid sid qid =
          Except.error (Err.learningPlanNotFound pid)) := by
  refine ⟨fun sel gen mq mk sid now => rfl, ?_, fun ql ev pid sid qid => rfl⟩
  intro sq att ass h
  unfold SessionQuestion.attach_assessment
  rw [listIndex_eq_none_of_not_mem sq.attempts att h]

theorem failure_conditions_mixed_generic_and_named_witness :
    (startStudySessionExecute none cSelect cGen 6 3 "s" 0 =
        Except.error (Err.valueError "LearningPlan not found")) ∧
      (cAttemptOpen ∉ cSqEmpty.attempts ∧
        cSqEmpty.attach_assessment cAttemptOpen cAssessmentWrong =
          (cSqEmpty, some (Err.valueError "list.index(x): x not in list"))) ∧
      (assessQuestionExecute none (fun _ => none) (fun _ _ => cAssessmentWrong)
          "p" "s" "q" = Except.error (Err.learningPlanNotFound "p")) :=
  ⟨failure_conditions_mixed_generic_and_named.1 cSelect cGen 6 3 "s" 0,
    ⟨List.not_mem_nil _,
      failure_conditions_mixed_generic_and_named.2.1 cSqEmpty cAttemptOpen
        cAssessmentWrong (List.not_mem_nil _)⟩,
    failure_conditions_mixed_generic_and_named.2.2 (fun _ => none)
      (fun _ _ => cAssessmentWrong) "p" "s" "q"⟩

/-- C9 counterexample: a missing LearningPlan in StartStudySession surfaces as
the generic ValueError, not as the distinct LearningPlanNotFound condition,
and attaching an assessment to an absent attempt surfaces as the generic
ValueError of list.index rather than any distinct mismatch condition. -/
theorem missing_plan_and_attempt_errors_are_generic :
    startStudySessionExecute none cSelect cGen 6 3 "s" 0 =
        Except.error (Err.valueError "LearningPlan not found") ∧
      (cSqEmpty.attach_assessment cAttemptOpen cAssessmentWrong).2 =
        some (Err.valueError "list.index(x): x not in list") ∧
      Err.valueError "LearningPlan not found" ≠ Err.learningPlanNotFound "p1" :=
  ⟨rfl, rfl, by decide⟩

theorem collect_inner_mem (kuId : KnowledgeUnitID)
    (qs : List (QuestionID × SessionQuestion)) :
    ∀ (acc : List SessionQuestion) (sq : SessionQuestion),
      sq ∈ qs.foldl (fun acc2 p =>
        if p.2.knowledge_unit_id = some kuId ∧ p.2.status ≠ QuestionStatus.pending
        then acc2 ++ [p.2] else acc2) acc →
      sq ∈ acc ∨ sq.knowledge_unit_id = some kuId := by
  induction qs with
  | nil =>
      intro acc sq h
      exact Or.inl h
  | cons p rest ih =>
      intro acc sq h
      rw [List.foldl_cons] at h
      rcases ih _ sq h with hacc | hk
      · by_cases hp : p.2.knowledge_unit_id = some kuId ∧
            p.2.status ≠ QuestionStatus.pending
        · rw [if_pos hp] at hacc
          rcases List.mem_append.mp hacc with h1 | h2
          · exact Or.inl h1
          · right
            have : sq = p.2 := List.mem_singleton.mp h2
            rw [this]
            exact hp.1
        · rw [if_neg hp] at hacc
          exact Or.inl hacc
      · exact Or.inr hk

theorem collect_sessions_mem (kuId : KnowledgeUnitID)
    (sessions : List StudySession) :
    ∀ (acc : List SessionQuestion) (sq : SessionQuestion),
      sq ∈ sessions.foldl (fun acc session =>
        session.questions.foldl (fun acc2 p =>
          if p.2.knowledge_unit_id = some kuId ∧ p.2.status ≠ QuestionStatus.pending
          then acc2 ++ [p.2] else acc2) acc) acc →
      sq ∈ acc ∨ sq.knowledge_unit_id = some kuId := by
  induction sessions with
  | nil =>
      intro acc sq h
      exact Or.inl h
  | cons session rest ih =>
      intro acc sq h
      rw [List.foldl_cons] at h
      rcases ih _ sq h with hacc | hk
      · exact collect_inner_mem kuId session.questions acc sq hacc
      · exact Or.inr hk

theorem collect_mem (plan : LearningPlan) (kuId : KnowledgeUnitID)
    (sq : SessionQuestion) (h : sq ∈ collectKuSessionQuestions plan kuId) :
    sq.knowledge_unit_id = some kuId := by
  unfold collectKuSessionQuestions at h
  rcases collect_sessions_mem kuId plan.sessions [] sq h with h0 | hk
  · exact absurd h0 (List.not_mem_nil _)
  · exact hk

/-- C10: a SessionQuestion created by register_question carries
knowledge_unit_id none, and the UpdateKnowledgeUnitMastery collection step
only ever gathers session questions whose knowledge_unit_id equals the target
unit's id — so a register-created question is never part of any mastery
computation. -/
theorem register_created_question_excluded_from_mastery :
    (∀ (s : StudySession) (qid : QuestionID),
        s.can_ask_more_questions = true → dictMem s.questions qid = false →
        (s.register_question qid).1.questions =
            s.questions ++ [(qid, { question_id := qid })] ∧
          ({ question_id := qid } : SessionQuestion).knowledge_unit_id = none) ∧
      (∀ (plan : LearningPlan) (kuId : KnowledgeUnitID) (sq : SessionQuestion),
        sq ∈ collectKuSessionQuestions plan kuId →
        sq.knowledge_unit_id = some kuId) ∧
      (∀ (plan : LearningPlan) (kuId : KnowledgeUnitID) (sq : SessionQuestion),
        sq.knowledge_unit_id = none →
        sq ∉ collectKuSessionQuestions plan kuId) := by
  refine ⟨?_, ?_, ?_⟩
  · intro s qid hc hm
    constructor
    · unfold StudySession.register_question
      simp [hc, hm]
    · rfl
  · intro plan kuId sq h
    exact collect_mem plan kuId sq h
  · intro plan kuId sq hn hmem
    have hk := collect_mem plan kuId sq hmem
    rw [hn] at hk
    exact Option.noConfusion hk

theorem register_created_question_excluded_from_mastery_witness :
    (cOpenSession.can_ask_more_questions = true ∧
        dictMem cOpenSession.questions "q2" = false ∧
        ((cOpenSession.register_question "q2").1.questions =
            cOpenSession.questions ++ [("q2", { question_id := "q2" })] ∧
          ({ question_id := "q2" } : SessionQuestion).knowledge_unit_id = none)) ∧
      (cSqEmpty.knowledge_unit_id = none ∧
        cSqEmpty ∉ collectKuSessionQuestions cPlanCompleted "ku1") :=
  ⟨⟨rfl, rfl,
      register_created_question_excluded_from_mastery.1 cOpenSession "q2" rfl rfl⟩,
    ⟨rfl,
      register_created_question_excluded_from_mastery.2.2 cPlanCompleted "ku1"
        cSqEmpty rfl⟩⟩

end Socrates
